import Mathlib

/-!
Verification of the cookie-scraper analysis engine
(`cookie_scraper/cookie_spider.py`, `cookie_scraper/cookie_utils.py`).

The Python code is shallowly embedded: dictionaries with string keys become
structures whose fields are `Option`-typed (a `none` field models an absent
key), Python's insertion-ordered `dict` accumulators become association
lists (update-in-place keeps the position of an existing key, a new key is
appended at the end), Python `set` accumulators become duplicate-free lists
in first-insertion order, and Python floats are modelled as exact rationals
(`PyFloat`, an explicit numerator/denominator pair; every concrete value
used below is exactly representable in binary64, so the modelled arithmetic
agrees with the float arithmetic there).  String primitives (`split`,
`lower`, `in`, `endswith`) are defined over the character list of the
string so that every definition evaluates inside the kernel.

External libraries that the code calls (`urllib.parse.urlparse(...).netloc`,
`tldextract.extract`, the `re` regex engine together with
`urllib.parse.unquote`) are not part of the repository; the functions that
use them take them as explicit function parameters (`netlocOf`,
`extractReg`, `matcher`), and the theorems quantify over those parameters
or instantiate them with concrete closed terms.
-/

/-- Python's `str.split(sep)` for a one-character separator, on character
lists: splitting the empty string gives `[[]]`, separators at the ends give
empty pieces, exactly as in Python. -/
def pySplit (sep : Char) : List Char → List (List Char)
  | [] => [[]]
  | c :: rest =>
    let r := pySplit sep rest
    if c = sep then [] :: r
    else (c :: r.headI) :: r.tail

/-- `s.split(sep)` lifted back to strings. -/
def strSplit (s : String) (sep : Char) : List String :=
  (pySplit sep s.data).map String.mk

/-- Python's `c in s` for a single character. -/
def strHasChar (s : String) (c : Char) : Bool :=
  s.data.contains c

/-- Python's `s.lower()` (ASCII case folding, which is all the hard-coded
keyword tables need). -/
def pyLower (s : String) : String :=
  String.mk (s.data.map Char.toLower)

/-- Substring occurrence on character lists: `subOfList needle hay` is `true`
iff `needle` occurs contiguously in `hay`; models Python's `needle in hay`
on strings. -/
def subOfList (needle : List Char) : List Char → Bool
  | [] => needle.isEmpty
  | c :: rest => needle.isPrefixOf (c :: rest) || subOfList needle rest

/-- Python's substring test `needle in hay` for strings. -/
def strContainsSub (hay needle : String) : Bool :=
  subOfList needle.data hay.data

/-- Python's `hay.endswith(suf)`. -/
def strEndsWith (hay suf : String) : Bool :=
  suf.data.isSuffixOf hay.data

/-- Python's `s.startswith(c)` for a one-character prefix. -/
def strHeadIs (s : String) (c : Char) : Bool :=
  match s.data with
  | [] => false
  | d :: _ => d = c

/-- Python's `s[1:]`. -/
def strDropOne (s : String) : String :=
  String.mk (s.data.drop 1)

/-- A Python float, modelled as an exact rational: an explicit
numerator/denominator pair, not kept in lowest terms.  All constructors used
in this development produce a positive denominator, which is what the
comparison operations assume. -/
structure PyFloat where
  num : ℤ
  den : ℤ
deriving DecidableEq

/-- `a - b` on modelled floats. -/
def PyFloat.sub (a b : PyFloat) : PyFloat :=
  ⟨a.num * b.den - b.num * a.den, a.den * b.den⟩

/-- `a / k` for an integer constant `k` (the code only ever divides by the
positive constants 86400, 3600, 60, 30 and 365). -/
def PyFloat.divInt (a : PyFloat) (k : ℤ) : PyFloat :=
  ⟨a.num, a.den * k⟩

/-- `a <= k` against an integer constant (valid for positive denominators). -/
def PyFloat.leInt (a : PyFloat) (k : ℤ) : Bool :=
  a.num ≤ k * a.den

/-- `a < k` against an integer constant (valid for positive denominators). -/
def PyFloat.ltInt (a : PyFloat) (k : ℤ) : Bool :=
  a.num < k * a.den

/-- `a == k` against an integer constant (valid for nonzero denominators). -/
def PyFloat.eqInt (a : PyFloat) (k : ℤ) : Bool :=
  a.num = k * a.den

/-- Python's `int()` on a float: truncation toward zero (`Int.tdiv`
truncates toward zero, and the denominator is positive in every use). -/
def PyFloat.trunc (a : PyFloat) : ℤ :=
  Int.tdiv a.num a.den

/-- `cookie_spider.CookieSpider.extract_base_domain` (cookie_spider.py,
lines 811-831): strip a port, split on `.`, return the last two labels,
or the last three labels for the hard-coded second-level-domain table;
fewer than two labels are returned as they are.  Python's end-relative
indexing `parts[-1]`, `parts[-2]`, `parts[-3:]` is rendered by matching on
the reversed label list. -/
def extract_base_domain (domain : String) : String :=
  if domain = "" then ""
  else
    let domain1 := if strHasChar domain ':' then (strSplit domain ':').headI else domain
    let parts := strSplit domain1 '.'
    match parts.reverse with
    | last :: sndLast :: thdLast :: _ =>
      if (["co", "com", "org", "net", "edu", "gov"].contains sndLast)
          && (["uk", "au", "nz", "jp"].contains last)
      then thdLast ++ "." ++ sndLast ++ "." ++ last
      else sndLast ++ "." ++ last
    | [last, sndLast] => sndLast ++ "." ++ last
    | _ => domain1

/-- The Domain Resolver contract as the specification words it (spec section
4.1 and claim C5): strip a port, split on `.`, return the last two labels,
except return the last three when the second-to-last label is a listed
second-level indicator and the last label is a listed country code; a
hostname with fewer than two labels is returned unchanged (after the port
strip). -/
def specRegisteredDomain (hostname : String) : String :=
  let host := if strHasChar hostname ':' then (strSplit hostname ':').headI else hostname
  let parts := strSplit host '.'
  match parts.reverse with
  | last :: sndLast :: thdLast :: _ =>
    if (["co", "com", "org", "net", "edu", "gov"].contains sndLast)
        && (["uk", "au", "nz", "jp"].contains last)
    then thdLast ++ "." ++ sndLast ++ "." ++ last
    else sndLast ++ "." ++ last
  | [last, sndLast] => sndLast ++ "." ++ last
  | _ => host

/-- `cookie_spider.CookieSpider.identify_tracking_purpose` (cookie_spider.py,
lines 242-288).  The keyword passes use Python's substring test `kw in
name_lower`; the vendor tables use exact membership.  The `cookie_value`
parameter is accepted but never read, exactly as in the source. -/
def identify_tracking_purpose (cookie_name : String) (cookie_value : String) : String :=
  let analytics_keywords := ["analytics", "ga", "_ga", "gtm", "pixel", "stats", "track", "visit"]
  let ad_keywords := ["ad", "ads", "advert", "campaign", "promo", "promotion", "marketing"]
  let session_keywords := ["session", "sid", "user", "auth", "login", "account"]
  let preference_keywords := ["pref", "setting", "consent", "accept", "agree"]
  let functional_keywords := ["func", "feature", "ui", "display", "layout", "theme"]
  let name_lower := pyLower cookie_name
  if analytics_keywords.any (fun kw => strContainsSub name_lower kw) then "Analytics"
  else if ad_keywords.any (fun kw => strContainsSub name_lower kw) then "Advertising"
  else if session_keywords.any (fun kw => strContainsSub name_lower kw) then "Session/Authentication"
  else if preference_keywords.any (fun kw => strContainsSub name_lower kw) then "Preferences/Consent"
  else if functional_keywords.any (fun kw => strContainsSub name_lower kw) then "Functional"
  else if ["_fbp", "fr"].contains name_lower then "Facebook Tracking"
  else if ["_gid", "_ga", "_gat"].contains name_lower then "Google Analytics"
  else if ["__utma", "__utmb", "__utmc", "__utmz"].contains name_lower then "Google Analytics (Legacy)"
  else if ["_hjid", "_hjSessionUser"].contains name_lower then "Hotjar Analytics"
  else if ["_pin_unauth", "_pinterest_sess"].contains name_lower then "Pinterest Tracking"
  else if ["_twitter_sess", "ct0"].contains name_lower then "Twitter Tracking"
  else "Unknown"

/-- The record returned by `calculate_cookie_age` (the Python function
returns a dict with keys `seconds`, `days`, `readable`, `is_session`). -/
structure AgeInfo where
  seconds : Option PyFloat
  days : Option PyFloat
  readable : String
  is_session : Bool
deriving DecidableEq

/-- `cookie_spider.CookieSpider.calculate_cookie_age` (cookie_spider.py,
lines 673-730).  The expiry argument is modelled as `none` (Python `None`,
an absent value, or a string that `float()` rejects - all of which reach
the initial session record) or `some q` for a numeric value.  Python's
`if not expiry_timestamp` is truthiness: it also takes the session branch
when the numeric value equals `0`. -/
def calculate_cookie_age (expiry_timestamp : Option PyFloat) (current_time : PyFloat) : AgeInfo :=
  let age_info : AgeInfo :=
    ⟨none, none, "Session cookie (expires when browser closes)", true⟩
  match expiry_timestamp with
  | none => age_info
  | some e =>
    if e.eqInt 0 then age_info
    else
      let age_seconds := e.sub current_time
      if age_seconds.leInt 0 then
        ⟨some age_seconds, some (age_seconds.divInt 86400), "Expired", false⟩
      else
        let age_days := age_seconds.divInt 86400
        let readable :=
          if age_days.ltInt 1 then
            let hours := age_seconds.divInt 3600
            if hours.ltInt 1 then
              let minutes := age_seconds.divInt 60
              toString minutes.trunc ++ " minute" ++ (if minutes.eqInt 1 then "" else "s")
            else
              toString hours.trunc ++ " hour" ++ (if hours.eqInt 1 then "" else "s")
          else if age_days.ltInt 30 then
            toString age_days.trunc ++ " day" ++ (if age_days.eqInt 1 then "" else "s")
          else if age_days.ltInt 365 then
            let months := age_days.divInt 30
            toString months.trunc ++ " month" ++ (if months.eqInt 1 then "" else "s")
          else
            let years := age_days.divInt 365
            toString years.trunc ++ " year" ++ (if years.eqInt 1 then "" else "s")
        ⟨some age_seconds, some age_days, readable, false⟩

example : extract_base_domain "www.example.com" = "example.com" := by decide
example : extract_base_domain "shop.example.co.uk" = "example.co.uk" := by decide
example : extract_base_domain "localhost:8080" = "localhost" := by decide
example : identify_tracking_purpose "_ga" "" = "Analytics" := by decide
example : (calculate_cookie_age (some ⟨129600, 1⟩) ⟨0, 1⟩).readable = "1 days" := by decide
example : (calculate_cookie_age (some ⟨86400, 1⟩) ⟨0, 1⟩).readable = "1 day" := by decide
example : (calculate_cookie_age (some ⟨86399, 1⟩) ⟨0, 1⟩).readable = "23 hours" := by decide
example : calculate_cookie_age (some ⟨0, 1⟩) ⟨1000, 1⟩ =
    ⟨none, none, "Session cookie (expires when browser closes)", true⟩ := by decide

/-- The derived `age` dictionary optionally stored on a raw cookie record
(only the keys that `analyze_cookies` reads are modelled: `is_session` is
read with default `True`, `days` with default `None`).  An absent field and
Python's falsy empty dict `{}` are both modelled by `none` at the cookie. -/
structure AgeRec where
  is_session : Option Bool
  days : Option PyFloat
deriving DecidableEq

/-- A raw cookie record: a JSON dictionary whose keys may all be absent
(`none`).  Both spellings `httponly`/`httpOnly` and `samesite`/`sameSite`
occur in the source (different functions read different keys), so both are
fields. -/
structure Cookie where
  name : Option String
  value : Option String
  domain : Option String
  path : Option String
  secure : Option Bool
  httponly : Option Bool
  httpOnly : Option Bool
  samesite : Option String
  sameSite : Option String
  age : Option AgeRec
  is_third_party : Option Bool
  tracking_purpose : Option String
deriving DecidableEq

/-- A cookie record with every key absent. -/
def Cookie.blank : Cookie :=
  ⟨none, none, none, none, none, none, none, none, none, none, none, none⟩

/-- One snapshot file, as loaded by `load_cookie_files`.  A missing
`cookies`/`localStorage`/`sessionStorage`/`third_party_cookies` key and an
empty one are indistinguishable to the analysis code (iterating resp.
truthiness), so they are modelled as plain lists. -/
structure Snapshot where
  url : Option String
  cookies : List Cookie
  localStorage : List (String × String)
  sessionStorage : List (String × String)
  third_party_cookies : List Cookie
deriving DecidableEq

/-- `d.get(k, default)` on an insertion-ordered string-keyed dict. -/
def alistGetD (l : List (String × α)) (k : String) (d : α) : α :=
  match l with
  | [] => d
  | (k0, v) :: t => if k0 = k then v else alistGetD t k d

/-- `d[k] = v` on an insertion-ordered dict: an existing key keeps its
position, a new key is appended at the end - Python dict semantics. -/
def alistSet (l : List (String × α)) (k : String) (v : α) : List (String × α) :=
  match l with
  | [] => [(k, v)]
  | (k0, v0) :: t => if k0 = k then (k0, v) :: t else (k0, v0) :: alistSet t k v

/-- `k in d` on an insertion-ordered dict. -/
def alistHas (l : List (String × α)) (k : String) : Bool :=
  match l with
  | [] => false
  | (k0, _) :: t => k0 = k || alistHas t k

/-- `s.add(x)` on a Python set, modelled as a duplicate-free list in
first-insertion order. -/
def setAdd (l : List String) (x : String) : List String :=
  if l.contains x then l else l ++ [x]

/-- Python's `'.'.join(parts)`. -/
def joinDot : List String → String
  | [] => ""
  | [a] => a
  | a :: rest => a ++ "." ++ joinDot rest

/-- The `cookie_age_categories` sub-dictionary of `analyze_cookies`. -/
structure AgeCategories where
  session : Nat
  short_term : Nat
  medium_term : Nat
  long_term : Nat
  expired : Nat
deriving DecidableEq

/-- The statistics object built by `analyze_cookies` (cookie_utils.py, lines
371-556).  Only the fields some claim is about, and the fields interacting
with them, are modelled; the omitted dictionary fields of the source
(`cookies_per_domain`, `storage_per_domain`, `common_cookie_names`,
`common_storage_keys`, `cookie_age_distribution`, the average/maximum ages,
`samesite_stats`, `samesite_by_domain`) are updated on disjoint keys of the
stats dict and never read by the code that maintains the fields below. -/
structure CookieStats where
  total_domains : Nat
  total_cookies : Nat
  total_localStorage : Nat
  total_sessionStorage : Nat
  secure_cookies : Nat
  httponly_cookies : Nat
  third_party_cookies : Nat
  session_cookies : Nat
  persistent_cookies : Nat
  cookie_age_categories : AgeCategories
deriving DecidableEq

/-- The all-zero statistics object (also returned for an empty input list). -/
def zeroCookieStats : CookieStats :=
  ⟨0, 0, 0, 0, 0, 0, 0, 0, 0, ⟨0, 0, 0, 0, 0⟩⟩

/-- `main_domain` of one file in `analyze_cookies` (cookie_utils.py, line
450): the last two dot-separated labels of `urlparse(url).netloc`, or
`"unknown"` when the record has no `url` key.  `urlparse(...).netloc` is the
external-library parameter `netlocOf`. -/
def mainDomainOf (netlocOf : String → String) (f : Snapshot) : String :=
  match f.url with
  | none => "unknown"
  | some u =>
    let parts := strSplit (netlocOf u) '.'
    joinDot (parts.drop (parts.length - 2))

/-- `analyze_cookies`, secure counting (line 459-460). -/
def stepSecure (c : Cookie) (s : CookieStats) : CookieStats :=
  if c.secure.getD false then { s with secure_cookies := s.secure_cookies + 1 } else s

/-- `analyze_cookies`, httponly counting (line 461-462). -/
def stepHttponly (c : Cookie) (s : CookieStats) : CookieStats :=
  if c.httponly.getD false then { s with httponly_cookies := s.httponly_cookies + 1 } else s

/-- `analyze_cookies`, third-party counting (lines 465-467): the cookie
domain must be non-empty and must fail Python's `str.endswith` suffix test
in both directions against `main_domain`. -/
def stepThirdParty (main_domain : String) (c : Cookie) (s : CookieStats) : CookieStats :=
  let cookie_domain := c.domain.getD ""
  if cookie_domain != "" && !(strEndsWith cookie_domain main_domain)
      && !(strEndsWith main_domain cookie_domain)
  then { s with third_party_cookies := s.third_party_cookies + 1 }
  else s

/-- `analyze_cookies`, session/persistent and age-category counting (lines
469-496).  `age_info = cookie.get('age', {})` followed by `if age_info:`
means a cookie without a (non-empty) `age` dict is counted in neither
bucket. -/
def stepAge (c : Cookie) (s : CookieStats) : CookieStats :=
  match c.age with
  | none => s
  | some a =>
    if a.is_session.getD true then
      { s with session_cookies := s.session_cookies + 1,
               cookie_age_categories :=
                 { s.cookie_age_categories with
                   session := s.cookie_age_categories.session + 1 } }
    else
      let s := { s with persistent_cookies := s.persistent_cookies + 1 }
      match a.days with
      | none => s
      | some d =>
        if d.leInt 0 then
          { s with cookie_age_categories :=
              { s.cookie_age_categories with
                expired := s.cookie_age_categories.expired + 1 } }
        else if d.ltInt 1 then
          { s with cookie_age_categories :=
              { s.cookie_age_categories with
                short_term := s.cookie_age_categories.short_term + 1 } }
        else if d.leInt 30 then
          { s with cookie_age_categories :=
              { s.cookie_age_categories with
                medium_term := s.cookie_age_categories.medium_term + 1 } }
        else
          { s with cookie_age_categories :=
              { s.cookie_age_categories with
                long_term := s.cookie_age_categories.long_term + 1 } }

/-- The body of the inner cookie loop of `analyze_cookies` (lines 453-519),
restricted to the modelled fields, in source order. -/
def analyzeCookieStep (main_domain : String) (s : CookieStats) (c : Cookie) : CookieStats :=
  stepAge c (stepThirdParty main_domain c (stepHttponly c (stepSecure c s)))

/-- `cookie_utils.analyze_cookies` (cookie_utils.py, lines 371-556),
restricted to the modelled fields.  The totals are computed up front from
the input exactly as in the source; the loop then accumulates the per-cookie
counters. -/
def analyze_cookies (netlocOf : String → String) (files : List Snapshot) : CookieStats :=
  if files.isEmpty then zeroCookieStats
  else
    let init : CookieStats :=
      { zeroCookieStats with
        total_domains := files.length,
        total_cookies := (files.map (fun f => f.cookies.length)).sum,
        total_localStorage := (files.map (fun f => f.localStorage.length)).sum,
        total_sessionStorage := (files.map (fun f => f.sessionStorage.length)).sum }
    files.foldl (fun s f => f.cookies.foldl (analyzeCookieStep (mainDomainOf netlocOf f)) s) init

/-- One third-party entry of the relationship graph: the dict
`{'count': ..., 'purposes': set(), 'cookie_names': []}` of
`analyze_domain_relationships`.  The purpose set is modelled as a
duplicate-free list in first-insertion order (Python's set iteration order
is hash-seed dependent; the final `list(...)` materialization applies no
sorting, so only membership and duplicate-freeness are guaranteed - the
model fixes first-insertion order as its deterministic stand-in). -/
structure TPEntry where
  count : Nat
  purposes : List String
  cookie_names : List String
deriving DecidableEq

/-- One first-party entry of the relationship graph: the dict
`{'third_parties': {...}, 'total_third_party_cookies': ...}`. -/
structure FPEntry where
  third_parties : List (String × TPEntry)
  total_third_party_cookies : Nat
deriving DecidableEq

/-- The statistics object of `analyze_domain_relationships`
(cookie_utils.py, lines 214-368).  `top_trackers` is the list of
`{'domain':..., 'count':...}` dicts, modelled as pairs. -/
structure RelStats where
  domain_relationships : List (String × FPEntry)
  third_party_domains : List (String × Nat)
  third_party_purposes : List (String × List (String × Nat))
  top_trackers : List (String × Nat)
deriving DecidableEq

/-- The empty `RelStats` (also returned for an empty input list). -/
def zeroRelStats : RelStats := ⟨[], [], [], []⟩

/-- The body of the pre-tagged third-party cookie loop of
`analyze_domain_relationships` (cookie_utils.py, lines 261-308): skip an
empty domain, strip one leading dot, compute the registered domain
(`tldextract`, the parameter `extractReg`), skip when it equals the
first party's registered domain, else update the relationship entry, the
global third-party domain count and the purpose table. -/
def processTaggedCookie (extractReg : String → String) (fpReg : String)
    (s : RelStats) (c : Cookie) : RelStats :=
  let cookie_domain := c.domain.getD ""
  if cookie_domain = "" then s
  else
    let cookie_domain := if strHeadIs cookie_domain '.' then strDropOne cookie_domain else cookie_domain
    let tpReg := extractReg cookie_domain
    if tpReg = fpReg then s
    else
      let cookie_name := c.name.getD "unknown"
      let purpose := c.tracking_purpose.getD "Unknown"
      let fpEntry := alistGetD s.domain_relationships fpReg ⟨[], 0⟩
      let tpEntry := alistGetD fpEntry.third_parties tpReg ⟨0, [], []⟩
      let tpEntry : TPEntry :=
        ⟨tpEntry.count + 1, setAdd tpEntry.purposes purpose, tpEntry.cookie_names ++ [cookie_name]⟩
      let fpEntry : FPEntry :=
        ⟨alistSet fpEntry.third_parties tpReg tpEntry, fpEntry.total_third_party_cookies + 1⟩
      let s := { s with domain_relationships := alistSet s.domain_relationships fpReg fpEntry }
      let s := { s with third_party_domains :=
                   alistSet s.third_party_domains tpReg (alistGetD s.third_party_domains tpReg 0 + 1) }
      let purposeTable := alistGetD s.third_party_purposes tpReg []
      let purposeTable := alistSet purposeTable purpose (alistGetD purposeTable purpose 0 + 1)
      { s with third_party_purposes := alistSet s.third_party_purposes tpReg purposeTable }

/-- The body of the fallback cookie loop of `analyze_domain_relationships`
(cookie_utils.py, lines 312-356): used when a snapshot carries no pre-tagged
third-party cookie list.  Note two source facts mirrored here: the leading
dot is only stripped when the `is_third_party` flag is not already set, and
this path updates neither `purposes` nor `third_party_purposes`. -/
def processFallbackCookie (extractReg : String → String) (fpReg : String)
    (s : RelStats) (c : Cookie) : RelStats :=
  let cookie_domain := c.domain.getD ""
  if cookie_domain = "" then s
  else
    let flagged := c.is_third_party.getD false
    let cookie_domain :=
      if flagged then cookie_domain
      else if strHeadIs cookie_domain '.' then strDropOne cookie_domain else cookie_domain
    let is3 := flagged || (extractReg cookie_domain != fpReg)
    if is3 then
      let tpReg := extractReg cookie_domain
      let cookie_name := c.name.getD "unknown"
      let fpEntry := alistGetD s.domain_relationships fpReg ⟨[], 0⟩
      let tpEntry := alistGetD fpEntry.third_parties tpReg ⟨0, [], []⟩
      let tpEntry : TPEntry :=
        ⟨tpEntry.count + 1, tpEntry.purposes, tpEntry.cookie_names ++ [cookie_name]⟩
      let fpEntry : FPEntry :=
        ⟨alistSet fpEntry.third_parties tpReg tpEntry, fpEntry.total_third_party_cookies + 1⟩
      let s := { s with domain_relationships := alistSet s.domain_relationships fpReg fpEntry }
      { s with third_party_domains :=
          alistSet s.third_party_domains tpReg (alistGetD s.third_party_domains tpReg 0 + 1) }
    else s

/-- Processing of one snapshot in `analyze_domain_relationships`
(cookie_utils.py, lines 240-356): compute the first party's registered
domain, initialize its relationship entry if absent, then run the
pre-tagged loop when `third_party_cookies` is (present and) non-empty, else
the fallback loop over `cookies`. -/
def processRelFile (extractReg netlocOf : String → String)
    (s : RelStats) (f : Snapshot) : RelStats :=
  let url := f.url.getD "unknown"
  let fpReg := extractReg (netlocOf url)
  let s :=
    if alistHas s.domain_relationships fpReg then s
    else { s with domain_relationships := s.domain_relationships ++ [(fpReg, ⟨[], 0⟩)] }
  if f.third_party_cookies.isEmpty then
    f.cookies.foldl (processFallbackCookie extractReg fpReg) s
  else
    f.third_party_cookies.foldl (processTaggedCookie extractReg fpReg) s

/-- A stable descending insertion by count: models one step of Python's
stable `sorted(..., key=lambda x: x[1], reverse=True)`. -/
def insertByCountDesc (x : String × Nat) : List (String × Nat) → List (String × Nat)
  | [] => [x]
  | y :: t => if y.2 ≤ x.2 then x :: y :: t else y :: insertByCountDesc x t

/-- Python's stable descending sort by count (ties keep first-encountered
order). -/
def sortByCountDesc (l : List (String × Nat)) : List (String × Nat) :=
  l.foldr insertByCountDesc []

/-- `cookie_utils.analyze_domain_relationships` (cookie_utils.py, lines
214-368).  The final `list(set)` materialization of the purpose sets is the
identity on the list model of sets; `top_trackers` is the top 10 of the
global third-party domain counts, sorted by count descending. -/
def analyze_domain_relationships (extractReg netlocOf : String → String)
    (files : List Snapshot) : RelStats :=
  if files.isEmpty then zeroRelStats
  else
    let s := files.foldl (processRelFile extractReg netlocOf) zeroRelStats
    { s with top_trackers := (sortByCountDesc s.third_party_domains).take 10 }

/-- One cookie entry of a `vulnerable_domains` record of the XSS report. -/
structure VulnCookie where
  name : String
  matched_patterns : List String
  httponly : Bool
  secure : Bool
deriving DecidableEq

/-- One `vulnerable_domains` record: `{'count': ..., 'cookies': [...]}`. -/
structure VulnDomain where
  count : Nat
  cookies : List VulnCookie
deriving DecidableEq

/-- One entry of the `xss_findings` list. -/
structure XssFinding where
  domain : String
  cookie_domain : String
  cookie_name : String
  matched_patterns : List String
  httponly : Bool
  secure : Bool
  path : String
  sameSite : String
deriving DecidableEq

/-- The statistics object of `analyze_xss_vulnerabilities`
(cookie_utils.py, lines 37-81). -/
structure XssStats where
  total_cookies_analyzed : Nat
  potentially_vulnerable_cookies : Nat
  xss_findings : List XssFinding
  vulnerable_domains : List (String × VulnDomain)
deriving DecidableEq

/-- The zero XSS statistics object. -/
def zeroXssStats : XssStats := ⟨0, 0, [], []⟩

/-- `cookie_utils._update_xss_stats` (cookie_utils.py, lines 172-211). -/
def updateXssStats (s : XssStats) (domain : String) (c : Cookie)
    (cookie_name cookie_domain : String) (matched : List String) : XssStats :=
  let s := { s with potentially_vulnerable_cookies := s.potentially_vulnerable_cookies + 1 }
  let old := alistGetD s.vulnerable_domains domain ⟨0, []⟩
  let entry : VulnDomain :=
    ⟨old.count + 1,
     old.cookies ++ [⟨cookie_name, matched, c.httpOnly.getD false, c.secure.getD false⟩]⟩
  let s := { s with vulnerable_domains := alistSet s.vulnerable_domains domain entry }
  { s with xss_findings :=
      s.xss_findings ++
        [⟨domain, cookie_domain, cookie_name, matched, c.httpOnly.getD false,
          c.secure.getD false, c.path.getD "/", c.sameSite.getD "None"⟩] }

/-- The body of the cookie loop of `cookie_utils._process_cookies_for_xss`
(cookie_utils.py, lines 128-143): count the cookie, skip an empty value,
run the scanner (`_check_cookie_for_xss`, which wraps the external regex
engine and URL decoder - the parameter `matcher`), and record a finding
when at least one pattern matched. -/
def processCookieXss (matcher : String → List String) (domain : String)
    (s : XssStats) (c : Cookie) : XssStats :=
  let s := { s with total_cookies_analyzed := s.total_cookies_analyzed + 1 }
  let cookie_name := c.name.getD "unknown"
  let cookie_value := c.value.getD ""
  let cookie_domain := c.domain.getD domain
  if cookie_value = "" then s
  else
    let matched := matcher cookie_value
    if matched.isEmpty then s
    else updateXssStats s domain c cookie_name cookie_domain matched

/-- Processing of one snapshot in `analyze_xss_vulnerabilities`
(cookie_utils.py, lines 61-66). -/
def processXssFile (matcher : String → List String) (netlocOf : String → String)
    (s : XssStats) (f : Snapshot) : XssStats :=
  let url := f.url.getD "unknown"
  let domain := netlocOf url
  f.cookies.foldl (processCookieXss matcher domain) s

/-- `cookie_utils.analyze_xss_vulnerabilities` (cookie_utils.py, lines
37-68). -/
def analyze_xss_vulnerabilities (matcher : String → List String)
    (netlocOf : String → String) (files : List Snapshot) : XssStats :=
  if files.isEmpty then zeroXssStats
  else files.foldl (processXssFile matcher netlocOf) zeroXssStats

/-- The sum of the `count` fields over the `vulnerable_domains` table. -/
def sumVulnCounts (l : List (String × VulnDomain)) : Nat :=
  (l.map (fun p => p.2.count)).sum

/-- Ascending lexicographic comparison of strings by code point, the order
Python's `sorted` uses on strings. -/
def lexLe : List Char → List Char → Bool
  | [], _ => true
  | _ :: _, [] => false
  | a :: as, b :: bs =>
    if a.toNat < b.toNat then true
    else if b.toNat < a.toNat then false
    else lexLe as bs

/-- `l` is sorted ascending in Python's string order. -/
def isSortedAsc : List String → Bool
  | [] => true
  | [_] => true
  | a :: b :: t => lexLe a.data b.data && isSortedAsc (b :: t)

/-- The amended characterization of claim C3: a cookie is counted in the
global third-party count iff its domain key is non-empty and neither the
cookie domain is a string suffix of the page's main domain nor the main
domain a string suffix of the cookie domain. -/
def specThirdPartyCounted (main_domain : String) (c : Cookie) : Bool :=
  let cd := c.domain.getD ""
  cd != "" && !(strEndsWith cd main_domain) && !(strEndsWith main_domain cd)

/-- The invariant behind the amended claim C6: every purpose list reachable
in the relationship graph is duplicate-free. -/
def RelInv (s : RelStats) : Prop :=
  ∀ fp ∈ s.domain_relationships, ∀ tp ∈ fp.2.third_parties, tp.2.purposes.Nodup

/-- The strip-one-leading-dot normalization the relationship analysis
applies to a tagged cookie's domain before `tldextract`. -/
def stripLeadingDot (d : String) : String :=
  if strHeadIs d '.' then strDropOne d else d

/-- A tagged third-party cookie record with name, domain and purpose. -/
def taggedCookie (n d p : String) : Cookie :=
  ⟨some n, none, some d, none, none, none, none, none, none, none, none, some p⟩

/-- A cookie record carrying only a domain. -/
def domainCookie (d : String) : Cookie :=
  ⟨none, none, some d, none, none, none, none, none, none, none, none, none⟩

/-- Input for claim C6: one snapshot of `a.com` with two pre-tagged
third-party cookies of the same tracker, whose purposes arrive in
non-alphabetical order. -/
def c6File : Snapshot :=
  ⟨some "http://a.com", [], [], [], [taggedCookie "t1" "tracker.net" "Unknown", taggedCookie "t2" "tracker.net" "Analytics"]⟩

/-- Input for claim C1: one snapshot with one raw Collector-format cookie
record (no derived `age` field). -/
def c1File : Snapshot :=
  ⟨some "http://example.com", [Cookie.blank], [], [], []⟩

/-- Input for claim C3: the page `example.com` with a cookie of the distinct
registered domain `evilexample.com`, which happens to be a string suffix
match. -/
def c3File : Snapshot :=
  ⟨some "http://example.com", [domainCookie "evilexample.com"], [], [], []⟩

/-- Input for claim C10: a genuine tracker cookie, kept in both runs. -/
def c10Tracker : Cookie := taggedCookie "tt" "tracker.net" "Analytics"

/-- Input for claim C10: a pre-tagged entry whose registered domain equals
the page's (`www.a.com` resolves to `a.com` under the page `a.com`). -/
def c10SameParty : Cookie := taggedCookie "sp" "www.a.com" "Unknown"

example :
    (analyze_domain_relationships extract_base_domain (fun _ => "a.com") [c6File]).domain_relationships
      = [("a.com", ⟨[("tracker.net", ⟨2, ["Unknown", "Analytics"], ["t1", "t2"]⟩)], 2⟩)] := by decide

example :
    (analyze_domain_relationships extract_base_domain (fun _ => "a.com") [c6File]).top_trackers
      = [("tracker.net", 2)] := by decide

example : (analyze_cookies (fun _ => "example.com") [c1File]).total_cookies = 1 := by decide
example : (analyze_cookies (fun _ => "example.com") [c1File]).session_cookies = 0 := by decide
example : (analyze_cookies (fun _ => "example.com") [c1File]).persistent_cookies = 0 := by decide
example : (analyze_cookies (fun _ => "example.com") [c3File]).third_party_cookies = 0 := by decide
example : isSortedAsc ["Unknown", "Analytics"] = false := by decide
example : isSortedAsc ["Analytics", "Unknown"] = true := by decide

/-- C5: `extract_base_domain` implements the Domain Resolver contract word
for word - strip a port, split on `.`, last two labels, last three for the
hard-coded second-level table, fewer than two labels unchanged - and in
particular maps `www.example.com` to `example.com` and `shop.example.co.uk`
to `example.co.uk`. -/
theorem c5_extract_base_domain_meets_spec :
    (∀ d, extract_base_domain d = specRegisteredDomain d)
      ∧ extract_base_domain "www.example.com" = "example.com"
      ∧ extract_base_domain "shop.example.co.uk" = "example.co.uk" := by
  refine ⟨fun d => ?_, by decide, by decide⟩
  by_cases h : d = ""
  · subst h; decide
  · simp only [extract_base_domain, specRegisteredDomain, if_neg h]

/-- C2 fails as stated: at the concrete input `("_ga", "")` the classifier
does not return the vendor label `"Google Analytics"` (the Analytics
keyword pass fires first). -/
theorem c2_ga_counterexample :
    ¬ identify_tracking_purpose "_ga" "" = "Google Analytics" := by decide

/-- C2 (amended): for every cookie value, the classifier applied to the
cookie name `_ga` returns `"Analytics"` - the Analytics keyword set
contains `ga` and `_ga` and the keyword passes run before the vendor
tables, so the `"Google Analytics"` vendor entry for `_ga` is unreachable. -/
theorem c2_ga_returns_analytics :
    ∀ v, identify_tracking_purpose "_ga" v = "Analytics" :=
  fun _ => rfl

/-- C8: two-run noninterference in the cookie value - the classifier
returns the same label on `(name, v1)` and `(name, v2)` for every name and
every pair of values, since the value parameter is never inspected. -/
theorem c8_value_noninterference :
    ∀ (name v1 v2 : String),
      identify_tracking_purpose name v1 = identify_tracking_purpose name v2 :=
  fun _ _ _ => rfl

/-- C4 (code divergence): at the failing input `expiry = 0`,
`current_time = 1000`, the code returns the session-cookie record - Python's
`if not expiry_timestamp` treats the numeric value `0` as falsy - although
`expiry - now = -1000 <= 0`, where the claim (and the code's own comment
"If expiry is None or empty") requires the Expired record. -/
theorem c4_expiry_zero_yields_session_record :
    calculate_cookie_age (some ⟨0, 1⟩) ⟨1000, 1⟩
      = ⟨none, none, "Session cookie (expires when browser closes)", true⟩
      ∧ calculate_cookie_age (some ⟨0, 1⟩) ⟨1000, 1⟩ ≠
          ⟨some ⟨-1000, 1⟩, some (PyFloat.divInt ⟨-1000, 1⟩ 86400), "Expired", false⟩ := by
  exact ⟨by decide, by decide⟩

/-- C7 (code divergence): at the failing input `expiry = 129600`, `now = 0`
(an age of exactly 1.5 days) the readable string is `"1 days"` - the plural
test compares the un-truncated float `1.5 != 1` although the displayed,
truncated unit count is 1, where the claim requires `"1 day"`. -/
theorem c7_one_point_five_days_renders_plural :
    (calculate_cookie_age (some ⟨129600, 1⟩) ⟨0, 1⟩).readable = "1 days"
      ∧ (PyFloat.trunc (PyFloat.divInt (PyFloat.sub ⟨129600, 1⟩ ⟨0, 1⟩) 86400)) = 1 := by
  exact ⟨by decide, by decide⟩

theorem stepSecure_counts (c : Cookie) (s : CookieStats) :
    (stepSecure c s).session_cookies = s.session_cookies
      ∧ (stepSecure c s).persistent_cookies = s.persistent_cookies
      ∧ (stepSecure c s).third_party_cookies = s.third_party_cookies := by
  unfold stepSecure; split <;> exact ⟨rfl, rfl, rfl⟩

theorem stepHttponly_counts (c : Cookie) (s : CookieStats) :
    (stepHttponly c s).session_cookies = s.session_cookies
      ∧ (stepHttponly c s).persistent_cookies = s.persistent_cookies
      ∧ (stepHttponly c s).third_party_cookies = s.third_party_cookies := by
  unfold stepHttponly; split <;> exact ⟨rfl, rfl, rfl⟩

theorem stepThirdParty_eq (md : String) (c : Cookie) (s : CookieStats) :
    stepThirdParty md c s =
      if specThirdPartyCounted md c
      then { s with third_party_cookies := s.third_party_cookies + 1 }
      else s := rfl

theorem stepThirdParty_sp (md : String) (c : Cookie) (s : CookieStats) :
    (stepThirdParty md c s).session_cookies = s.session_cookies
      ∧ (stepThirdParty md c s).persistent_cookies = s.persistent_cookies := by
  rw [stepThirdParty_eq]; split <;> exact ⟨rfl, rfl⟩

theorem stepThirdParty_tp (md : String) (c : Cookie) (s : CookieStats) :
    (stepThirdParty md c s).third_party_cookies
      = s.third_party_cookies + (if specThirdPartyCounted md c then 1 else 0) := by
  rw [stepThirdParty_eq]; split <;> simp

theorem stepAge_tp (c : Cookie) (s : CookieStats) :
    (stepAge c s).third_party_cookies = s.third_party_cookies := by
  unfold stepAge
  rcases c.age with _ | a
  · rfl
  · dsimp only
    split
    · rfl
    · rcases a.days with _ | d
      · rfl
      · dsimp only
        split
        · rfl
        · split
          · rfl
          · split <;> rfl

theorem stepAge_sp (c : Cookie) (s : CookieStats) :
    (stepAge c s).session_cookies + (stepAge c s).persistent_cookies
      = s.session_cookies + s.persistent_cookies + (if c.age.isSome then 1 else 0) := by
  unfold stepAge
  rcases c.age with _ | a
  · simp
  · have h1 : (if (some a : Option AgeRec).isSome then (1 : Nat) else 0) = 1 := rfl
    rw [h1]
    dsimp only
    split
    · (try dsimp only); omega
    · rcases a.days with _ | d
      · (try dsimp only); omega
      · dsimp only
        split
        · (try dsimp only); omega
        · split
          · (try dsimp only); omega
          · split <;> ((try dsimp only); omega)

theorem analyzeCookieStep_tp (md : String) (c : Cookie) (s : CookieStats) :
    (analyzeCookieStep md s c).third_party_cookies
      = s.third_party_cookies + (if specThirdPartyCounted md c then 1 else 0) := by
  unfold analyzeCookieStep
  rw [stepAge_tp, stepThirdParty_tp,
      (stepHttponly_counts c (stepSecure c s)).2.2, (stepSecure_counts c s).2.2]

theorem analyzeCookieStep_sp (md : String) (c : Cookie) (s : CookieStats) :
    (analyzeCookieStep md s c).session_cookies + (analyzeCookieStep md s c).persistent_cookies
      = s.session_cookies + s.persistent_cookies + (if c.age.isSome then 1 else 0) := by
  unfold analyzeCookieStep
  rw [stepAge_sp, (stepThirdParty_sp md c _).1, (stepThirdParty_sp md c _).2,
      (stepHttponly_counts c _).1, (stepHttponly_counts c _).2.1,
      (stepSecure_counts c s).1, (stepSecure_counts c s).2.1]

theorem foldl_step_tp (cs : List Cookie) (md : String) :
    ∀ s : CookieStats,
      (cs.foldl (analyzeCookieStep md) s).third_party_cookies
        = s.third_party_cookies + cs.countP (specThirdPartyCounted md) := by
  induction cs with
  | nil => intro s; simp
  | cons c t ih =>
    intro s
    simp only [List.foldl_cons, List.countP_cons]
    rw [ih, analyzeCookieStep_tp]
    rcases h : specThirdPartyCounted md c <;> simp [h] <;> omega

theorem foldl_step_sp (cs : List Cookie) (md : String) :
    ∀ s : CookieStats,
      (cs.foldl (analyzeCookieStep md) s).session_cookies
          + (cs.foldl (analyzeCookieStep md) s).persistent_cookies
        = s.session_cookies + s.persistent_cookies
            + cs.countP (fun c => c.age.isSome) := by
  induction cs with
  | nil => intro s; simp
  | cons c t ih =>
    intro s
    simp only [List.foldl_cons, List.countP_cons]
    rw [ih, analyzeCookieStep_sp]
    rcases h : c.age.isSome <;> simp [h] <;> omega

theorem files_foldl_tp (files : List Snapshot) (netlocOf : String → String) :
    ∀ s : CookieStats,
      ((files.foldl
          (fun s f => f.cookies.foldl (analyzeCookieStep (mainDomainOf netlocOf f)) s)
          s).third_party_cookies)
        = s.third_party_cookies
            + ((files.map
                (fun f => f.cookies.countP (specThirdPartyCounted (mainDomainOf netlocOf f)))).sum) := by
  induction files with
  | nil => intro s; simp
  | cons f t ih =>
    intro s
    simp only [List.foldl_cons, List.map_cons, List.sum_cons]
    rw [ih, foldl_step_tp]
    omega

theorem files_foldl_sp (files : List Snapshot) (netlocOf : String → String) :
    ∀ s : CookieStats,
      ((files.foldl
          (fun s f => f.cookies.foldl (analyzeCookieStep (mainDomainOf netlocOf f)) s)
          s).session_cookies)
        + ((files.foldl
            (fun s f => f.cookies.foldl (analyzeCookieStep (mainDomainOf netlocOf f)) s)
            s).persistent_cookies)
        = s.session_cookies + s.persistent_cookies
            + ((files.map (fun f => f.cookies.countP (fun c => c.age.isSome))).sum) := by
  induction files with
  | nil => intro s; simp
  | cons f t ih =>
    intro s
    simp only [List.foldl_cons, List.map_cons, List.sum_cons]
    rw [ih, foldl_step_sp]
    omega

/-- C1 fails as stated: for the concrete snapshot `c1File`, whose single
cookie record carries no derived `age` field (the raw Collector format),
`analyze_cookies` reports `total_cookies = 1` but counts the cookie in
neither the session nor the persistent bucket, so the sums differ. -/
theorem c1_invariant_counterexample :
    (analyze_cookies (fun _ => "example.com") [c1File]).session_cookies
        + (analyze_cookies (fun _ => "example.com") [c1File]).persistent_cookies
      ≠ (analyze_cookies (fun _ => "example.com") [c1File]).total_cookies := by decide

/-- C1 (amended): for every list of snapshot records,
`session_cookies + persistent_cookies` equals the number of cookie records
whose `age` field is present (and non-empty); it equals `total_cookies`
exactly when every cookie carries a derived age, and is smaller when raw
Collector records occur. -/
theorem c1_session_persistent_eq_aged_count :
    ∀ (netlocOf : String → String) (files : List Snapshot),
      (analyze_cookies netlocOf files).session_cookies
          + (analyze_cookies netlocOf files).persistent_cookies
        = ((files.map (fun f => f.cookies.countP (fun c => c.age.isSome))).sum) := by
  intro netlocOf files
  unfold analyze_cookies
  split
  · next h => rw [List.isEmpty_iff.mp h]; rfl
  · rw [files_foldl_sp]; simp [zeroCookieStats]

/-- C3 fails as stated: for the concrete snapshot `c3File` the cookie
domain `evilexample.com` is non-empty and its registered domain differs
from the page's registered domain `example.com`, yet the global third-party
count stays 0, because the code uses Python's `str.endswith` string-suffix
test instead of registered-domain equality. -/
theorem c3_third_party_counterexample :
    (analyze_cookies (fun _ => "example.com") [c3File]).third_party_cookies = 0
      ∧ extract_base_domain "evilexample.com" ≠ extract_base_domain "example.com" :=
  ⟨by decide, by decide⟩

/-- C3 (amended): a cookie is counted in the global third-party count iff
its domain is non-empty and neither the cookie domain is a string suffix of
the page's main domain nor the main domain a string suffix of the cookie
domain, where the main domain is the last two dot-separated labels of the
page URL's netloc (`"unknown"` when the record has no url key); registered
domains are never computed on this path. -/
theorem c3_third_party_count_characterization :
    ∀ (netlocOf : String → String) (files : List Snapshot),
      (analyze_cookies netlocOf files).third_party_cookies
        = ((files.map
            (fun f => f.cookies.countP (specThirdPartyCounted (mainDomainOf netlocOf f)))).sum) := by
  intro netlocOf files
  unfold analyze_cookies
  split
  · next h => rw [List.isEmpty_iff.mp h]; rfl
  · rw [files_foldl_tp]; simp [zeroCookieStats]

theorem foldl_preserve {α β : Type} (P : α → Prop) (f : α → β → α)
    (hf : ∀ a b, P a → P (f a b)) : ∀ (l : List β) (a : α), P a → P (l.foldl f a) := by
  intro l
  induction l with
  | nil => intro a h; exact h
  | cons b t ih => intro a h; exact ih _ (hf a b h)

theorem sumVulnCounts_set (l : List (String × VulnDomain)) (k : String) (cs : List VulnCookie) :
    sumVulnCounts (alistSet l k ⟨(alistGetD l k ⟨0, []⟩).count + 1, cs⟩)
      = sumVulnCounts l + 1 := by
  induction l with
  | nil => simp [alistSet, alistGetD, sumVulnCounts]
  | cons hd t ih =>
    obtain ⟨k0, v⟩ := hd
    by_cases h : k0 = k
    · subst h
      simp [alistSet, alistGetD, sumVulnCounts]
      omega
    · simp only [alistSet, alistGetD, if_neg h, sumVulnCounts, List.map_cons, List.sum_cons]
      have ihx := ih
      simp only [sumVulnCounts] at ihx
      omega

theorem processCookieXss_inv (matcher : String → List String) (domain : String)
    (s : XssStats) (c : Cookie)
    (h1 : s.potentially_vulnerable_cookies = s.xss_findings.length)
    (h2 : s.potentially_vulnerable_cookies = sumVulnCounts s.vulnerable_domains)
    (h3 : s.potentially_vulnerable_cookies ≤ s.total_cookies_analyzed) :
    (processCookieXss matcher domain s c).potentially_vulnerable_cookies
        = (processCookieXss matcher domain s c).xss_findings.length
      ∧ (processCookieXss matcher domain s c).potentially_vulnerable_cookies
          = sumVulnCounts (processCookieXss matcher domain s c).vulnerable_domains
      ∧ (processCookieXss matcher domain s c).potentially_vulnerable_cookies
          ≤ (processCookieXss matcher domain s c).total_cookies_analyzed := by
  unfold processCookieXss updateXssStats
  dsimp only
  split
  · exact ⟨h1, h2, by dsimp only; omega⟩
  · split
    · exact ⟨h1, h2, by dsimp only; omega⟩
    · refine ⟨?_, ?_, ?_⟩
      · dsimp only
        simp only [List.length_append, List.length_cons, List.length_nil]
        omega
      · dsimp only
        rw [sumVulnCounts_set]
        omega
      · dsimp only
        omega

/-- C9: for every regex engine, every netloc parser and every list of
snapshot records, the XSS report is internally consistent:
`potentially_vulnerable_cookies` equals the length of `xss_findings`,
equals the sum of the `count` fields over `vulnerable_domains`, and is at
most `total_cookies_analyzed`. -/
theorem c9_xss_stats_consistent :
    ∀ (matcher : String → List String) (netlocOf : String → String)
      (files : List Snapshot),
      (analyze_xss_vulnerabilities matcher netlocOf files).potentially_vulnerable_cookies
          = (analyze_xss_vulnerabilities matcher netlocOf files).xss_findings.length
        ∧ (analyze_xss_vulnerabilities matcher netlocOf files).potentially_vulnerable_cookies
            = sumVulnCounts (analyze_xss_vulnerabilities matcher netlocOf files).vulnerable_domains
        ∧ (analyze_xss_vulnerabilities matcher netlocOf files).potentially_vulnerable_cookies
            ≤ (analyze_xss_vulnerabilities matcher netlocOf files).total_cookies_analyzed := by
  intro matcher netlocOf files
  unfold analyze_xss_vulnerabilities
  split
  · exact ⟨rfl, rfl, Nat.le_refl 0⟩
  · refine foldl_preserve
      (fun s : XssStats =>
        s.potentially_vulnerable_cookies = s.xss_findings.length
          ∧ s.potentially_vulnerable_cookies = sumVulnCounts s.vulnerable_domains
          ∧ s.potentially_vulnerable_cookies ≤ s.total_cookies_analyzed)
      (processXssFile matcher netlocOf) ?_ files zeroXssStats ⟨rfl, rfl, Nat.le_refl 0⟩
    intro s f hs
    unfold processXssFile
    refine foldl_preserve
      (fun s : XssStats =>
        s.potentially_vulnerable_cookies = s.xss_findings.length
          ∧ s.potentially_vulnerable_cookies = sumVulnCounts s.vulnerable_domains
          ∧ s.potentially_vulnerable_cookies ≤ s.total_cookies_analyzed)
      (processCookieXss matcher (netlocOf (f.url.getD "unknown"))) ?_ f.cookies s hs
    intro a b ha
    exact processCookieXss_inv matcher _ a b ha.1 ha.2.1 ha.2.2

theorem processTaggedCookie_skip (extractReg : String → String) (fpReg : String)
    (s : RelStats) (c : Cookie)
    (hr : extractReg (stripLeadingDot (c.domain.getD "")) = fpReg) :
    processTaggedCookie extractReg fpReg s c = s := by
  have hz : extractReg
      (if strHeadIs (c.domain.getD "") '.' then strDropOne (c.domain.getD "")
       else c.domain.getD "") = fpReg := hr
  by_cases h0 : c.domain.getD "" = ""
  · simp [processTaggedCookie, h0]
  · simp [processTaggedCookie, h0, hz]

theorem foldl_tagged_skip (extractReg : String → String) (fpReg : String) (c : Cookie)
    (hr : extractReg (stripLeadingDot (c.domain.getD "")) = fpReg) :
    ∀ (l1 l2 : List Cookie) (s : RelStats),
      (l1 ++ c :: l2).foldl (processTaggedCookie extractReg fpReg) s
        = (l1 ++ l2).foldl (processTaggedCookie extractReg fpReg) s := by
  intro l1
  induction l1 with
  | nil =>
    intro l2 s
    simp only [List.nil_append, List.foldl_cons, processTaggedCookie_skip extractReg fpReg s c hr]
  | cons a t ih =>
    intro l2 s
    simp only [List.cons_append, List.foldl_cons]
    exact ih l2 _

theorem processRelFile_skip (extractReg netlocOf : String → String) (url : Option String)
    (cs : List Cookie) (ls ss : List (String × String)) (l1 l2 : List Cookie) (c : Cookie)
    (hr : extractReg (stripLeadingDot (c.domain.getD ""))
            = extractReg (netlocOf (url.getD "unknown")))
    (hne : l1 ++ l2 ≠ []) :
    ∀ s : RelStats,
      processRelFile extractReg netlocOf s ⟨url, cs, ls, ss, l1 ++ c :: l2⟩
        = processRelFile extractReg netlocOf s ⟨url, cs, ls, ss, l1 ++ l2⟩ := by
  intro s
  have he1 : (l1 ++ c :: l2).isEmpty = false := by cases l1 <;> rfl
  have he2 : (l1 ++ l2).isEmpty = false := by
    cases h : l1 ++ l2 with
    | nil => exact absurd h hne
    | cons a t => rfl
  unfold processRelFile
  dsimp only
  rw [he1, he2]
  simp only [Bool.false_eq_true, if_false]
  exact foldl_tagged_skip extractReg _ c hr l1 l2 _

/-- C10: a pre-tagged `third_party_cookies` entry whose registered domain
(after the leading-dot strip) equals the page's registered domain is
silently skipped: processing it is the identity on the accumulated
statistics, and - as long as the rest of the pre-tagged list is non-empty,
so that the pre-tagged branch is taken in both runs - deleting the entry
from any snapshot of the batch leaves the entire result of
`analyze_domain_relationships` unchanged: the relationship graph,
`total_third_party_cookies`, the global `third_party_domains` counts and
`top_trackers`. -/
theorem c10_same_party_tagged_entry_skipped :
    ∀ (extractReg netlocOf : String → String) (fs1 fs2 : List Snapshot)
      (url : Option String) (cs : List Cookie) (ls ss : List (String × String))
      (l1 l2 : List Cookie) (c : Cookie),
      extractReg (stripLeadingDot (c.domain.getD ""))
          = extractReg (netlocOf (url.getD "unknown")) →
      l1 ++ l2 ≠ [] →
      (∀ s : RelStats,
          processTaggedCookie extractReg (extractReg (netlocOf (url.getD "unknown"))) s c = s)
        ∧ analyze_domain_relationships extractReg netlocOf
            (fs1 ++ ⟨url, cs, ls, ss, l1 ++ c :: l2⟩ :: fs2)
          = analyze_domain_relationships extractReg netlocOf
              (fs1 ++ ⟨url, cs, ls, ss, l1 ++ l2⟩ :: fs2) := by
  intro extractReg netlocOf fs1 fs2 url cs ls ss l1 l2 c hr hne
  refine ⟨fun s => processTaggedCookie_skip extractReg _ s c hr, ?_⟩
  have hf1 : (fs1 ++ (⟨url, cs, ls, ss, l1 ++ c :: l2⟩ : Snapshot) :: fs2).isEmpty = false := by
    cases fs1 <;> rfl
  have hf2 : (fs1 ++ (⟨url, cs, ls, ss, l1 ++ l2⟩ : Snapshot) :: fs2).isEmpty = false := by
    cases fs1 <;> rfl
  unfold analyze_domain_relationships
  rw [hf1, hf2]
  simp only [Bool.false_eq_true, if_false]
  rw [List.foldl_append, List.foldl_append, List.foldl_cons, List.foldl_cons,
      processRelFile_skip extractReg netlocOf url cs ls ss l1 l2 c hr hne]

/-- Witness for C10 at a concrete input: the page `a.com` with pre-tagged
entries `[tracker.net cookie, www.a.com cookie]`; deleting the same-party
`www.a.com` entry leaves the whole analysis result unchanged. -/
theorem c10_same_party_tagged_entry_skipped_witness :
    analyze_domain_relationships extract_base_domain (fun _ => "a.com")
        [⟨some "http://a.com", [], [], [], [c10Tracker, c10SameParty]⟩]
      = analyze_domain_relationships extract_base_domain (fun _ => "a.com")
          [⟨some "http://a.com", [], [], [], [c10Tracker]⟩] :=
  (c10_same_party_tagged_entry_skipped extract_base_domain (fun _ => "a.com")
    [] [] (some "http://a.com") [] [] [] [c10Tracker] [] c10SameParty
    (by decide) (by decide)).2

theorem setAdd_nodup (l : List String) (x : String) (h : l.Nodup) : (setAdd l x).Nodup := by
  unfold setAdd
  split
  · exact h
  · next hc =>
    have hx : x ∉ l := by simpa using hc
    simp [List.nodup_append, h, hx]

theorem mem_alistSet {α : Type} (l : List (String × α)) (k : String) (v : α) :
    ∀ p ∈ alistSet l k v, p ∈ l ∨ p.2 = v := by
  induction l with
  | nil =>
    intro p hp
    have hp' : p = (k, v) := by
      rw [show alistSet ([] : List (String × α)) k v = [(k, v)] from rfl] at hp
      exact List.mem_singleton.mp hp
    right; rw [hp']
  | cons hd t ih =>
    intro p hp
    obtain ⟨k0, v0⟩ := hd
    have he : alistSet ((k0, v0) :: t) k v
        = if k0 = k then (k0, v) :: t else (k0, v0) :: alistSet t k v := rfl
    by_cases h : k0 = k
    · rw [he, if_pos h] at hp
      rcases List.mem_cons.mp hp with h1 | h2
      · right; rw [h1]
      · left; exact List.mem_cons_of_mem _ h2
    · rw [he, if_neg h] at hp
      rcases List.mem_cons.mp hp with h1 | h2
      · left; rw [h1]; exact List.mem_cons_self _ _
      · rcases ih p h2 with h3 | h4
        · left; exact List.mem_cons_of_mem _ h3
        · right; exact h4

theorem alistGetD_mem_or {α : Type} (l : List (String × α)) (k : String) (d : α) :
    alistGetD l k d = d ∨ (k, alistGetD l k d) ∈ l := by
  induction l with
  | nil => left; rfl
  | cons hd t ih =>
    obtain ⟨k0, v0⟩ := hd
    by_cases h : k0 = k
    · subst h
      right
      simp [alistGetD]
    · simp only [alistGetD, if_neg h]
      rcases ih with h1 | h2
      · left; exact h1
      · right; exact List.mem_cons_of_mem _ h2

theorem processTaggedCookie_relInv (extractReg : String → String) (fpReg : String)
    (s : RelStats) (c : Cookie) (h : RelInv s) :
    RelInv (processTaggedCookie extractReg fpReg s c) := by
  by_cases h0 : c.domain.getD "" = ""
  · simpa [processTaggedCookie, h0] using h
  · by_cases h1 : extractReg (if strHeadIs (c.domain.getD "") '.' then strDropOne (c.domain.getD "")
        else c.domain.getD "") = fpReg
    · simpa [processTaggedCookie, h0, h1] using h
    · intro fp hfp tp htp
      simp only [processTaggedCookie, h0, h1, if_neg, if_false, ite_false] at hfp
      rcases mem_alistSet _ _ _ fp hfp with hin | heq
      · exact h fp hin tp htp
      · rw [heq] at htp
        dsimp only at htp
        rcases mem_alistSet _ _ _ tp htp with hin2 | heq2
        · rcases alistGetD_mem_or s.domain_relationships fpReg ⟨[], 0⟩ with hd1 | hd2
          · rw [hd1] at hin2; simp at hin2
          · exact h _ hd2 tp hin2
        · rw [heq2]
          dsimp only
          apply setAdd_nodup
          rcases alistGetD_mem_or
              (alistGetD s.domain_relationships fpReg ⟨[], 0⟩).third_parties
              (extractReg (if strHeadIs (c.domain.getD "") '.' then strDropOne (c.domain.getD "")
                else c.domain.getD "")) ⟨0, [], []⟩ with he1 | he2
          · rw [he1]; exact List.nodup_nil
          · rcases alistGetD_mem_or s.domain_relationships fpReg ⟨[], 0⟩ with hd1 | hd2
            · rw [hd1] at he2; simp at he2
            · exact h _ hd2 _ he2

theorem processFallbackCookie_relInv (extractReg : String → String) (fpReg : String)
    (s : RelStats) (c : Cookie) (h : RelInv s) :
    RelInv (processFallbackCookie extractReg fpReg s c) := by
  by_cases h0 : c.domain.getD "" = ""
  · simpa [processFallbackCookie, h0] using h
  · by_cases h1 : (c.is_third_party.getD false
        || (extractReg (if c.is_third_party.getD false then c.domain.getD ""
              else if strHeadIs (c.domain.getD "") '.' then strDropOne (c.domain.getD "")
              else c.domain.getD "") != fpReg)) = true
    · intro fp hfp tp htp
      simp only [processFallbackCookie, h0, h1, if_true, ite_true, if_neg, if_false] at hfp
      rcases mem_alistSet _ _ _ fp hfp with hin | heq
      · exact h fp hin tp htp
      · rw [heq] at htp
        dsimp only at htp
        rcases mem_alistSet _ _ _ tp htp with hin2 | heq2
        · rcases alistGetD_mem_or s.domain_relationships fpReg ⟨[], 0⟩ with hd1 | hd2
          · rw [hd1] at hin2; simp at hin2
          · exact h _ hd2 tp hin2
        · rw [heq2]
          dsimp only
          rcases alistGetD_mem_or
              (alistGetD s.domain_relationships fpReg ⟨[], 0⟩).third_parties
              (extractReg (if c.is_third_party.getD false then c.domain.getD ""
                else if strHeadIs (c.domain.getD "") '.' then strDropOne (c.domain.getD "")
                else c.domain.getD "")) ⟨0, [], []⟩ with he1 | he2
          · rw [he1]; exact List.nodup_nil
          · rcases alistGetD_mem_or s.domain_relationships fpReg ⟨[], 0⟩ with hd1 | hd2
            · rw [hd1] at he2; simp at he2
            · exact h _ hd2 _ he2
    · simpa [processFallbackCookie, h0, h1] using h

theorem processRelFile_relInv (extractReg netlocOf : String → String)
    (s : RelStats) (f : Snapshot) (h : RelInv s) :
    RelInv (processRelFile extractReg netlocOf s f) := by
  unfold processRelFile
  dsimp only
  have h1 : RelInv
      (if alistHas s.domain_relationships (extractReg (netlocOf (f.url.getD "unknown")))
       then s
       else { s with domain_relationships :=
                s.domain_relationships
                  ++ [(extractReg (netlocOf (f.url.getD "unknown")), ⟨[], 0⟩)] }) := by
    split
    · exact h
    · intro fp hfp tp htp
      dsimp only at hfp
      rcases List.mem_append.mp hfp with hin | hnew
      · exact h fp hin tp htp
      · simp at hnew
        rw [hnew] at htp
        simp at htp
  split
  · exact foldl_preserve RelInv
      (processFallbackCookie extractReg (extractReg (netlocOf (f.url.getD "unknown"))))
      (fun a b ha => processFallbackCookie_relInv _ _ a b ha) f.cookies _ h1
  · exact foldl_preserve RelInv
      (processTaggedCookie extractReg (extractReg (netlocOf (f.url.getD "unknown"))))
      (fun a b ha => processTaggedCookie_relInv _ _ a b ha) f.third_party_cookies _ h1

/-- C6 fails as stated: for the concrete input `c6File` the returned graph
has the purposes list `["Unknown", "Analytics"]` (the set's accumulation
order), which is not sorted - the code materializes the purpose sets with
`list(...)`, not `sorted(...)`. -/
theorem c6_purposes_unsorted_counterexample :
    (analyze_domain_relationships extract_base_domain (fun _ => "a.com")
        [c6File]).domain_relationships
      = [("a.com", ⟨[("tracker.net", ⟨2, ["Unknown", "Analytics"], ["t1", "t2"]⟩)], 2⟩)]
      ∧ isSortedAsc ["Unknown", "Analytics"] = false :=
  ⟨by decide, by decide⟩

/-- C6 (amended): every `purposes` field in the returned
`domain_relationships` graph is the `list(...)` materialization of the
accumulated purpose set - duplicate-free (set semantics), in the set's
iteration order, with no sorting applied at the result boundary. -/
theorem c6_purposes_nodup :
    ∀ (extractReg netlocOf : String → String) (files : List Snapshot)
      (fp : String × FPEntry) (tp : String × TPEntry),
      fp ∈ (analyze_domain_relationships extractReg netlocOf files).domain_relationships →
      tp ∈ fp.2.third_parties → tp.2.purposes.Nodup := by
  intro er nl files fp tp hfp htp
  have hmain : RelInv (analyze_domain_relationships er nl files) := by
    unfold analyze_domain_relationships
    split
    · intro fp hfp tp htp
      simp [zeroRelStats] at hfp
    · have hz : RelInv zeroRelStats := by
        intro fp hfp tp htp
        simp [zeroRelStats] at hfp
      have hfold : RelInv (files.foldl (processRelFile er nl) zeroRelStats) :=
        foldl_preserve RelInv (processRelFile er nl)
          (fun a b ha => processRelFile_relInv er nl a b ha) files zeroRelStats hz
      intro fp hfp tp htp
      exact hfold fp hfp tp htp
  exact hmain fp hfp tp htp

/-- Witness for C6 (amended) at a concrete input: the purposes list
accumulated for `tracker.net` under `a.com` is duplicate-free. -/
theorem c6_purposes_nodup_witness :
    (("tracker.net", (⟨2, ["Unknown", "Analytics"], ["t1", "t2"]⟩ : TPEntry)) :
        String × TPEntry).2.purposes.Nodup :=
  c6_purposes_nodup extract_base_domain (fun _ => "a.com") [c6File]
    ("a.com", ⟨[("tracker.net", ⟨2, ["Unknown", "Analytics"], ["t1", "t2"]⟩)], 2⟩)
    ("tracker.net", ⟨2, ["Unknown", "Analytics"], ["t1", "t2"]⟩)
    (by decide) (by decide)
